import Mathlib

/-!
Verification of the query-routing core of the audit-intelligence application
(`src/app.py`, class `AuditIntelligenceApp`): the intent classifier
`_determine_intent`, the agent selector `_get_relevant_agents`, and the
summary counters computed over the agent communication log in
`_display_smart_response`.

Queries are modelled as lists of characters; Python's `str.lower` becomes
`List.map Char.toLower` and Python's substring test `w in s` becomes
`w <:+: s` (contiguous-sublist containment).
-/

namespace TakedaAudit

/-- Agent identifiers used by the application: the five specialized
retrieval agents registered in the sidebar status table of `src/app.py`,
plus the virtual `orchestrator` marker that `_get_relevant_agents` puts
first in its result. -/
inductive AgentName where
  | orchestrator
  | web_scraper
  | internal_audit
  | external_conference
  | quality_systems
  | sop
deriving DecidableEq

/-- Python's substring test `w in s`: the word `w` occurs as a contiguous
substring of `s`. -/
def containsSub (s w : List Char) : Bool := decide (w <:+: s)

/-- Python's `any(word in s for word in ws)`. -/
def anyWordIn (ws : List (List Char)) (s : List Char) : Bool :=
  ws.any (fun w => containsSub s w)

/-- Checklist-intent vocabulary, from `_determine_intent` (src/app.py line 652). -/
def checklistWords : List (List Char) :=
  [("checklist").toList, ("list").toList, ("steps").toList, ("procedures").toList]

/-- Report-intent vocabulary, from `_determine_intent` (src/app.py line 656). -/
def reportWords : List (List Char) :=
  [("report").toList, ("analysis").toList, ("summary").toList, ("overview").toList]

/-- Insights-intent vocabulary, from `_determine_intent` (src/app.py line 660). -/
def insightsWords : List (List Char) :=
  [("insights").toList, ("trends").toList, ("patterns").toList, ("analysis").toList]

/-- `AuditIntelligenceApp._determine_intent` (src/app.py lines 647-664):
lowercase the query, then return the first of `checklist`, `report`,
`insights` whose vocabulary has a member occurring in the query, and
`general` when none does. -/
def determineIntent (query : List Char) : String :=
  let queryLower := query.map Char.toLower
  if anyWordIn checklistWords queryLower then "checklist"
  else if anyWordIn reportWords queryLower then "report"
  else if anyWordIn insightsWords queryLower then "insights"
  else "general"

/-- Company-name vocabulary, from `_get_relevant_agents` (src/app.py line 675). -/
def companyWords : List (List Char) :=
  [("hovione").toList, ("boehringer").toList, ("thermo fisher").toList, ("company").toList]

/-- Audit/compliance/checklist vocabulary, from `_get_relevant_agents`
(src/app.py line 679). -/
def auditWords : List (List Char) :=
  [("audit").toList, ("compliance").toList, ("checklist").toList]

/-- Quality/deviation vocabulary, from `_get_relevant_agents` (src/app.py line 683). -/
def qualityWords : List (List Char) :=
  [("quality").toList, ("snc").toList, ("deviation").toList]

/-- Conference/event vocabulary, from `_get_relevant_agents` (src/app.py line 687). -/
def conferenceWords : List (List Char) :=
  [("conference").toList, ("event").toList, ("meeting").toList]

/-- Regulatory/due-diligence vocabulary, from `_get_relevant_agents`
(src/app.py line 691). -/
def webScraperWords : List (List Char) :=
  [("fda").toList, ("warning").toList, ("due diligence").toList]

/-- The fallback list assigned when at most the orchestrator marker was
selected (src/app.py line 696). -/
def allRealAgents : List AgentName :=
  [.web_scraper, .internal_audit, .external_conference, .quality_systems, .sop]

/-- `AuditIntelligenceApp._get_relevant_agents` (src/app.py lines 666-698):
start from `['orchestrator']`, run the five independent keyword rules in
order, each appending its agents when its vocabulary matches the lowercased
query, and replace the whole list by the five real agents when no rule
fired (`len(relevant_agents) <= 1`). The `intent` argument is accepted but
never read, exactly as in the source. -/
def getRelevantAgents (query : List Char) (intent : String) : List AgentName :=
  let queryLower := query.map Char.toLower
  let r0 : List AgentName := [.orchestrator]
  let r1 := if anyWordIn companyWords queryLower then
      r0 ++ [.quality_systems, .external_conference] else r0
  let r2 := if anyWordIn auditWords queryLower then
      r1 ++ [.internal_audit, .sop] else r1
  let r3 := if anyWordIn qualityWords queryLower then
      r2 ++ [.quality_systems] else r2
  let r4 := if anyWordIn conferenceWords queryLower then
      r3 ++ [.external_conference] else r3
  let r5 := if anyWordIn webScraperWords queryLower then
      r4 ++ [.web_scraper] else r4
  if r5.length ≤ 1 then allRealAgents else r5

/-- The company-name rule of `_get_relevant_agents` fires on this query. -/
def companyTrig (query : List Char) : Bool :=
  anyWordIn companyWords (query.map Char.toLower)

/-- The audit/compliance/checklist rule of `_get_relevant_agents` fires. -/
def auditTrig (query : List Char) : Bool :=
  anyWordIn auditWords (query.map Char.toLower)

/-- The quality/deviation rule of `_get_relevant_agents` fires. -/
def qualityTrig (query : List Char) : Bool :=
  anyWordIn qualityWords (query.map Char.toLower)

/-- The conference/event rule of `_get_relevant_agents` fires. -/
def confTrig (query : List Char) : Bool :=
  anyWordIn conferenceWords (query.map Char.toLower)

/-- The regulatory/due-diligence rule of `_get_relevant_agents` fires. -/
def webTrig (query : List Char) : Bool :=
  anyWordIn webScraperWords (query.map Char.toLower)

/-- Some keyword-trigger rule of `_get_relevant_agents` fires. -/
def anyTrigger (query : List Char) : Bool :=
  companyTrig query || auditTrig query || qualityTrig query || confTrig query || webTrig query

/-- The additive union of the spec's keyword-trigger rule table (spec §4.2):
company-name terms contribute `quality_systems, external_conference`,
audit terms contribute `internal_audit, sop`, quality terms contribute
`quality_systems`, conference terms contribute `external_conference`, and
regulatory terms contribute `web_scraper`; contributions of the fired rules
are concatenated in rule order. -/
def ruleUnion (query : List Char) : List AgentName :=
  (if companyTrig query then [.quality_systems, .external_conference] else []) ++
  (if auditTrig query then [.internal_audit, .sop] else []) ++
  (if qualityTrig query then [.quality_systems] else []) ++
  (if confTrig query then [.external_conference] else []) ++
  (if webTrig query then [.web_scraper] else [])

/-- One entry of the smart orchestrator's agent communication log, as read
by `_display_smart_response` (src/app.py lines 552-573): the dictionary's
`status` and `documents_found` keys, with `none` modelling an absent key so
that Python's `comm.get(key, default)` becomes `Option.getD`. -/
structure AgentComm where
  status : Option String
  documents_found : Option Nat

/-- The `successful_agents` metric of `_display_smart_response`
(src/app.py line 561): the length of the sublist of communication-log
entries whose `status` is `completed`. -/
def successfulAgents (comms : List AgentComm) : Nat :=
  (comms.filter (fun comm => comm.status == some "completed")).length

/-- The `total_docs` metric of `_display_smart_response` (src/app.py line
565): the sum of `documents_found` (defaulting to 0) over the
communication-log entries whose `status` is `completed`. -/
def totalDocs (comms : List AgentComm) : Nat :=
  ((comms.filter (fun comm => comm.status == some "completed")).map
    (fun comm => comm.documents_found.getD 0)).sum

/-- The scenario query of spec §8. -/
def hovioneQuery : List Char :=
  ("Generate a checklist for Hovione sterile manufacturing audit").toList

/-- Master description of the selector: when some rule fires the result is
the orchestrator marker followed by the union of the fired rules'
contributions, and otherwise it is exactly the five real agents. -/
theorem getRelevantAgents_eq (q : List Char) (i : String) :
    getRelevantAgents q i =
      if anyTrigger q then AgentName.orchestrator :: ruleUnion q else allRealAgents := by
  unfold getRelevantAgents anyTrigger ruleUnion companyTrig auditTrig qualityTrig
    confTrig webTrig
  cases hc : anyWordIn companyWords (q.map Char.toLower) <;>
    cases ha : anyWordIn auditWords (q.map Char.toLower) <;>
    cases hq : anyWordIn qualityWords (q.map Char.toLower) <;>
    cases hf : anyWordIn conferenceWords (q.map Char.toLower) <;>
    cases hw : anyWordIn webScraperWords (q.map Char.toLower) <;>
    simp [hc, ha, hq, hf, hw, allRealAgents]

/-- Packing a scalar value below the surrogate range into a character
preserves the value. -/
theorem toNat_ofNat_small {n : Nat} (h : n < 55296) : (Char.ofNat n).toNat = n := by
  have hv : n.isValidChar := Or.inl h
  unfold Char.ofNat
  rw [dif_pos hv]
  rfl

/-- Lowercasing after uppercasing agrees with lowercasing directly. -/
theorem toLower_toUpper (c : Char) : c.toUpper.toLower = c.toLower := by
  simp only [Char.toUpper, Char.toLower]
  by_cases h : c.toNat ≥ 97 ∧ c.toNat ≤ 122
  · rw [if_pos h]
    have h1 : (Char.ofNat (c.toNat - 32)).toNat = c.toNat - 32 :=
      toNat_ofNat_small (by omega)
    rw [h1]
    rw [if_pos (⟨by omega, by omega⟩ : c.toNat - 32 ≥ 65 ∧ c.toNat - 32 ≤ 90)]
    rw [if_neg (by omega : ¬(c.toNat ≥ 65 ∧ c.toNat ≤ 90))]
    rw [(by omega : c.toNat - 32 + 32 = c.toNat), Char.ofNat_toNat]
  · rw [if_neg h]

/-- The classifier reads the query only through its lowercasing. -/
theorem determineIntent_congr {q₁ q₂ : List Char}
    (h : q₁.map Char.toLower = q₂.map Char.toLower) :
    determineIntent q₁ = determineIntent q₂ := by
  unfold determineIntent
  rw [h]

/-- The selector reads the query only through its lowercasing. -/
theorem getRelevantAgents_congr {q₁ q₂ : List Char} (i : String)
    (h : q₁.map Char.toLower = q₂.map Char.toLower) :
    getRelevantAgents q₁ i = getRelevantAgents q₂ i := by
  unfold getRelevantAgents
  rw [h]

/-- Uppercasing a query does not change its lowercasing. -/
theorem map_toLower_map_toUpper (q : List Char) :
    (q.map Char.toUpper).map Char.toLower = q.map Char.toLower := by
  rw [List.map_map]
  exact List.map_congr_left fun c _ => toLower_toUpper c

/-- C1: for every query and intent the agent selector returns at least one
real (non-orchestrator) agent, and when no keyword-trigger rule fires it
returns exactly the five real agents `web_scraper, internal_audit,
external_conference, quality_systems, sop`. -/
theorem selector_fallback_invariant (q : List Char) (i : String) :
    (∃ a ∈ getRelevantAgents q i, a ≠ AgentName.orchestrator) ∧
    (anyTrigger q = false → getRelevantAgents q i = allRealAgents) := by
  rw [getRelevantAgents_eq q i]
  cases h : anyTrigger q
  · refine ⟨?_, fun _ => by rw [if_neg (by decide : ¬(false = true))]⟩
    rw [if_neg (by decide : ¬(false = true))]
    decide
  · refine ⟨?_, by simp⟩
    have h' := h
    unfold anyTrigger at h'
    simp only [Bool.or_eq_true] at h'
    rcases h' with ((((hc | ha) | hq) | hf) | hw)
    · exact ⟨.quality_systems, by simp [ruleUnion, hc], by decide⟩
    · exact ⟨.internal_audit, by simp [ruleUnion, ha], by decide⟩
    · exact ⟨.quality_systems, by simp [ruleUnion, hq], by decide⟩
    · exact ⟨.external_conference, by simp [ruleUnion, hf], by decide⟩
    · exact ⟨.web_scraper, by simp [ruleUnion, hw], by decide⟩

/-- Witness for C1 at the trigger-free query "hello world". -/
theorem selector_fallback_invariant_witness :
    getRelevantAgents (("hello world").toList) "general" = allRealAgents :=
  (selector_fallback_invariant (("hello world").toList) "general").2 (by decide)

/-- C2: the intent classifier returns `checklist` when a checklist keyword
occurs in the lowercased query, otherwise `report` when a report keyword
occurs, otherwise `insights` when an insight keyword occurs, and otherwise
`general`: the vocabularies are tested in this fixed priority order and the
first match wins. -/
theorem intent_priority_order (q : List Char) :
    (anyWordIn checklistWords (q.map Char.toLower) = true →
      determineIntent q = "checklist") ∧
    (anyWordIn checklistWords (q.map Char.toLower) = false →
      anyWordIn reportWords (q.map Char.toLower) = true →
      determineIntent q = "report") ∧
    (anyWordIn checklistWords (q.map Char.toLower) = false →
      anyWordIn reportWords (q.map Char.toLower) = false →
      anyWordIn insightsWords (q.map Char.toLower) = true →
      determineIntent q = "insights") ∧
    (anyWordIn checklistWords (q.map Char.toLower) = false →
      anyWordIn reportWords (q.map Char.toLower) = false →
      anyWordIn insightsWords (q.map Char.toLower) = false →
      determineIntent q = "general") := by
  unfold determineIntent
  refine ⟨fun h1 => ?_, fun h1 h2 => ?_, fun h1 h2 h3 => ?_, fun h1 h2 h3 => ?_⟩ <;>
    simp_all

/-- Witness for C2 at the query "weekly report", which matches no checklist
keyword and matches the report vocabulary. -/
theorem intent_priority_order_witness :
    determineIntent (("weekly report").toList) = "report" :=
  (intent_priority_order (("weekly report").toList)).2.1 (by decide) (by decide)

/-- C3: whenever at least one keyword-trigger rule fires, the selector's
result is the virtual orchestrator marker followed by the additive union of
the fired rules' contributions: company-name terms add `quality_systems,
external_conference`, audit/compliance/checklist terms add `internal_audit,
sop`, quality/deviation terms add `quality_systems`, conference/event terms
add `external_conference`, regulatory/due-diligence terms add
`web_scraper`; several rules may fire on one query. -/
theorem selector_additive_union (q : List Char) (i : String)
    (h : anyTrigger q = true) :
    getRelevantAgents q i = AgentName.orchestrator :: ruleUnion q := by
  rw [getRelevantAgents_eq q i, if_pos h]

/-- Witness for C3 at the query "audit prep", which fires exactly the
audit/compliance/checklist rule. -/
theorem selector_additive_union_witness :
    getRelevantAgents (("audit prep").toList) "general" =
      [AgentName.orchestrator, AgentName.internal_audit, AgentName.sop] := by
  rw [selector_additive_union (("audit prep").toList) "general" (by decide)]
  decide

/-- C4: the reported successful-agent count equals the number of
communication-log entries with status `completed`, and the reported
document total equals the sum of per-agent document counts over the
`completed` entries only, every other entry contributing zero. -/
theorem summary_counts_spec (comms : List AgentComm) :
    successfulAgents comms =
      comms.countP (fun comm => comm.status == some "completed") ∧
    totalDocs comms =
      (comms.map (fun comm =>
        if comm.status == some "completed" then comm.documents_found.getD 0
        else 0)).sum := by
  constructor
  · rw [successfulAgents, List.countP_eq_length_filter]
  · induction comms with
    | nil => rfl
    | cons c cs ih =>
      simp only [totalDocs, List.filter_cons, List.map_cons, List.sum_cons] at ih ⊢
      cases h : (c.status == some "completed") <;> simp [h, ih]

/-- C5: for the query "Generate a checklist for Hovione sterile
manufacturing audit" the classifier returns `checklist` and the selector's
result includes `internal_audit`, `sop`, `quality_systems` and
`external_conference`. -/
theorem hovione_checklist_scenario :
    determineIntent hovioneQuery = "checklist" ∧
    AgentName.internal_audit ∈ getRelevantAgents hovioneQuery "checklist" ∧
    AgentName.sop ∈ getRelevantAgents hovioneQuery "checklist" ∧
    AgentName.quality_systems ∈ getRelevantAgents hovioneQuery "checklist" ∧
    AgentName.external_conference ∈ getRelevantAgents hovioneQuery "checklist" := by
  decide

/-- C6 counterexample: the query "company quality" fires both the
company-name rule and the quality/deviation rule, and the selector's result
then lists `quality_systems` twice, refuting the claim that the returned
sequence never contains duplicates. -/
theorem selector_duplicates_counterexample :
    ¬ (getRelevantAgents (("company quality").toList) "general").Nodup := by
  decide

/-- C6 amended: the selector's result has no duplicate entries if and only
if the company-name rule does not fire together with the quality/deviation
rule or the conference/event rule; when those rules overlap the shared
agent appears once per fired rule. -/
theorem selector_duplicates_iff (q : List Char) (i : String) :
    (getRelevantAgents q i).Nodup ↔
      (companyTrig q && (qualityTrig q || confTrig q)) = false := by
  rw [getRelevantAgents_eq q i]
  unfold anyTrigger ruleUnion
  cases hc : companyTrig q <;> cases ha : auditTrig q <;>
    cases hq : qualityTrig q <;> cases hf : confTrig q <;>
    cases hw : webTrig q <;> decide

/-- C7 counterexample: on the query "zzz" no rule fires, the fallback
applies, and the returned list does not contain the orchestrator marker,
refuting the claim that the marker is always present. -/
theorem orchestrator_marker_counterexample :
    AgentName.orchestrator ∉ getRelevantAgents (("zzz").toList) "general" := by
  decide

/-- C7 amended: the selector's result contains the virtual orchestrator
marker exactly when some keyword-trigger rule fires; in the fallback case
the marker is discarded and only the five real agents are returned. -/
theorem orchestrator_marker_iff (q : List Char) (i : String) :
    AgentName.orchestrator ∈ getRelevantAgents q i ↔ anyTrigger q = true := by
  rw [getRelevantAgents_eq q i]
  cases h : anyTrigger q
  · rw [if_neg (by decide : ¬(false = true))]
    decide
  · simp

/-- C8: the intent classifier is total over arbitrary queries: it always
returns one of the four values `checklist`, `report`, `insights`,
`general`. -/
theorem intent_classifier_total (q : List Char) :
    determineIntent q = "checklist" ∨ determineIntent q = "report" ∨
      determineIntent q = "insights" ∨ determineIntent q = "general" := by
  simp only [determineIntent]
  split_ifs <;> simp

/-- C9: keyword matching is plain substring containment, not whole-word
matching: any query whose lowercased text contains "blacklist" (which
embeds the checklist keyword "list") is classified `checklist`, and any
query whose lowercased text contains "unaudited" (which embeds the trigger
keyword "audit") makes the selector include `internal_audit`. -/
theorem substring_containment_matching (q : List Char) (i : String) :
    (("blacklist").toList <:+: q.map Char.toLower →
      determineIntent q = "checklist") ∧
    (("unaudited").toList <:+: q.map Char.toLower →
      AgentName.internal_audit ∈ getRelevantAgents q i) := by
  constructor
  · intro hb
    have hl : ("list").toList <:+: q.map Char.toLower :=
      List.IsInfix.trans (by decide) hb
    have hany : anyWordIn checklistWords (q.map Char.toLower) = true := by
      simp only [anyWordIn, checklistWords, containsSub, List.any_eq_true,
        decide_eq_true_eq]
      exact ⟨("list").toList, by decide, hl⟩
    unfold determineIntent
    simp [hany]
  · intro ha
    have hl : ("audit").toList <:+: q.map Char.toLower :=
      List.IsInfix.trans (by decide) ha
    have htrig : auditTrig q = true := by
      simp only [auditTrig, anyWordIn, auditWords, containsSub, List.any_eq_true,
        decide_eq_true_eq]
      exact ⟨("audit").toList, by decide, hl⟩
    have hanyt : anyTrigger q = true := by
      simp [anyTrigger, htrig]
    rw [getRelevantAgents_eq q i, if_pos hanyt]
    simp [ruleUnion, htrig]

/-- Witness for C9 at a query containing "blacklisted" and "unaudited" but
no standalone keyword of the matched vocabularies. -/
theorem substring_containment_matching_witness :
    determineIntent (("Were any suppliers blacklisted or unaudited?").toList) =
      "checklist" ∧
    AgentName.internal_audit ∈
      getRelevantAgents (("Were any suppliers blacklisted or unaudited?").toList)
        "general" :=
  ⟨(substring_containment_matching
      (("Were any suppliers blacklisted or unaudited?").toList) "general").1
      (by decide),
   (substring_containment_matching
      (("Were any suppliers blacklisted or unaudited?").toList) "general").2
      (by decide)⟩

/-- C10: the intent classifier and the agent selector are invariant under
letter case of the query: two queries with the same lowercasing (in
particular any two case-variants of the same text) receive the same intent
and the same selected agents, because both functions lowercase the query
before matching their lowercase keyword sets. -/
theorem case_insensitive_matching (q₁ q₂ : List Char) (i : String)
    (h : q₁.map Char.toLower = q₂.map Char.toLower) :
    (determineIntent q₁ = determineIntent q₂ ∧
     getRelevantAgents q₁ i = getRelevantAgents q₂ i) ∧
    (determineIntent (q₁.map Char.toUpper) = determineIntent q₁ ∧
     getRelevantAgents (q₁.map Char.toUpper) i = getRelevantAgents q₁ i) :=
  ⟨⟨determineIntent_congr h, getRelevantAgents_congr i h⟩,
   ⟨determineIntent_congr (map_toLower_map_toUpper q₁),
    getRelevantAgents_congr i (map_toLower_map_toUpper q₁)⟩⟩

/-- Witness for C10 at the case-variants "AUDIT REPORT" and "audit report". -/
theorem case_insensitive_matching_witness :
    (determineIntent (("AUDIT REPORT").toList) =
       determineIntent (("audit report").toList) ∧
     getRelevantAgents (("AUDIT REPORT").toList) "general" =
       getRelevantAgents (("audit report").toList) "general") ∧
    (determineIntent ((("AUDIT REPORT").toList).map Char.toUpper) =
       determineIntent (("AUDIT REPORT").toList) ∧
     getRelevantAgents ((("AUDIT REPORT").toList).map Char.toUpper) "general" =
       getRelevantAgents (("AUDIT REPORT").toList) "general") :=
  case_insensitive_matching (("AUDIT REPORT").toList)
    (("audit report").toList) "general" (by decide)

end TakedaAudit
